import Mathlib

/-!
# Verification of the TTS/ASR gateway's streaming session orchestrator

A shallow embedding of the gateway service (`src/gateway/main.py`,
`src/gateway/services.py`) of the TTS_ASR_Service repository, together with
proofs about its full-duplex relay loop, its one-way echo pipeline and its
health aggregation.

Modelling conventions:
* A Python `bytes` payload is a `List Nat`.
* Python's `not text or not text.strip()` test is equivalent to: every
  character of `text` is whitespace (an empty string passes vacuously);
  it is embedded as `isBlank` below.
* The messages a backend websocket yields before it terminates are a finite
  list of frames followed by a terminator (clean close, or a transport
  failure that raises inside the `async for`).
* Client-visible effects (frames sent to the client socket, the opening and
  closing of the ephemeral backend connection) are recorded as an event
  trace, in program order.
-/

namespace Gateway

/-- Python `json.dumps` of a string value; escaping of special characters is
elided (no property below depends on it). -/
def jsonStr (s : String) : String := "\"" ++ s ++ "\""

/-- Python's `not text or not text.strip()` (equivalently
`not text.strip()`): the string is empty or all-whitespace. -/
def isBlank (s : String) : Bool := s.data.all Char.isWhitespace

/-- One timed segment of a recognition result, as produced by the ASR backend
(`{start_ms, end_ms, text}`). -/
structure Seg where
  start_ms : Int
  end_ms : Int
  text : String
deriving DecidableEq, Repr

/-- Python `json.dumps` of one segment dict. -/
def segJson (s : Seg) : String :=
  "\x7b\"start_ms\": " ++ toString s.start_ms ++ ", \"end_ms\": " ++
    toString s.end_ms ++ ", \"text\": " ++ jsonStr s.text ++ "\x7d"

/-- `json.dumps(segments) if segments else "[]"` from `echo_bytes`
(src/gateway/main.py line 255). -/
def segmentsJsonOf (l : List Seg) : String :=
  if l.isEmpty then "[]"
  else "[" ++ String.intercalate ", " (l.map segJson) ++ "]"

/-! ## The backend synthesis websocket, as seen by the relay

`TTSServiceClient.synthesize_stream_websocket` (src/gateway/services.py
lines 43-73) iterates over the messages of one ephemeral backend websocket.
Each message is either a `bytes` frame or a text frame; a text frame is
parsed as JSON and only `{"type": "end"}` is acted upon. -/

/-- One message received from the ephemeral backend TTS websocket. -/
inductive BackendFrame
  /-- A binary audio frame. -/
  | binary (payload : List Nat)
  /-- A text frame that parses as JSON with `"type" = "end"`. -/
  | endCtrl
  /-- A text frame that parses as JSON of the shape `{"error": msg}` —
  an error control frame; its `"type"` key is absent, hence not `"end"`. -/
  | errorCtrl (msg : String)
  /-- Any other text frame that parses as JSON whose `"type"` is not `"end"`. -/
  | otherJson (s : String)
  /-- A text frame on which `json.loads` raises `JSONDecodeError`. -/
  | nonJson (s : String)
deriving DecidableEq, Repr

/-- How the backend message iterator terminates when no `end` control frame
was consumed first. -/
inductive StreamEnd
  /-- The backend closed the connection cleanly: the `async for` simply ends. -/
  | closed
  /-- The backend transport failed: the `async for` raises with this message. -/
  | transportError (msg : String)
deriving DecidableEq, Repr

/-- One ephemeral backend synthesis connection: the frames it yields, then
how it terminates if the relay never breaks out. -/
structure BackendStream where
  frames : List BackendFrame
  ending : StreamEnd
deriving DecidableEq, Repr

/-- A client-visible or resource event emitted by the gateway while serving
one full-duplex session. -/
inductive Ev
  /-- `websockets.connect` to the TTS backend succeeded (ephemeral connection
  now open). -/
  | openConn
  /-- The ephemeral backend connection was closed (`async with` exit, on
  every path). -/
  | closeConn
  /-- `websocket.send_bytes`: one binary audio frame forwarded to the client. -/
  | audio (payload : List Nat)
  /-- `websocket.send_text '{"type": "end"}'`: the end marker for one text item. -/
  | endMarker
  /-- `websocket.send_text '{"error": ...}'`: one client-visible error message. -/
  | errorMsg (msg : String)
deriving DecidableEq, Repr

/-- Result of one relay cycle: returned normally, or raised an exception
which the caller in `tts_websocket` will catch. -/
inductive RelayResult
  | ok
  | raised (msg : String)
deriving DecidableEq, Repr

/-- The frame-forwarding loop of `synthesize_stream_websocket`
(src/gateway/services.py lines 55-67): binary frames are forwarded to the
client; a `{"type": "end"}` text frame is forwarded as the end marker and
breaks the loop; every other text frame (error control frames included) is
ignored; exhausting the iterator returns normally on a clean close and
raises on a transport failure. -/
def relayFrames : List BackendFrame → StreamEnd → List Ev × RelayResult
  | [], .closed => ([], .ok)
  | [], .transportError m => ([], .raised m)
  | .binary p :: rest, e =>
      let r := relayFrames rest e
      (.audio p :: r.1, r.2)
  | .endCtrl :: _, _ => ([.endMarker], .ok)
  | .errorCtrl _ :: rest, e => relayFrames rest e
  | .otherJson _ :: rest, e => relayFrames rest e
  | .nonJson _ :: rest, e => relayFrames rest e

/-- `TTSServiceClient.synthesize_stream_websocket websocket text`: opens one
ephemeral backend connection (`async with websockets.connect`), sends the
text, runs the frame loop, and closes the connection on every exit path
(normal return, `break`, or exception). The text sent does not influence
which frames come back, so the backend's behaviour is the `BackendStream`
argument. -/
def synthesize_stream_websocket (s : BackendStream) : List Ev × RelayResult :=
  let r := relayFrames s.frames s.ending
  (Ev.openConn :: r.1 ++ [Ev.closeConn], r.2)

/-! ## The full-duplex client endpoint `tts_websocket`

src/gateway/main.py lines 97-172. One parsed client message is one of:
unparsable JSON, an object with a `"text"` key, an object without `"text"`
but with `"segments"`, or an object with neither key. -/

/-- One item of a `"segments"` list: a dict that may or may not carry a
`"text"` key. -/
inductive SegItem
  /-- A segment dict without a `"text"` key. -/
  | noText
  /-- A segment dict whose `"text"` key holds `t`. -/
  | withText (t : String)
deriving DecidableEq, Repr

/-- One client message on the full-duplex endpoint, after `json.loads`. -/
inductive ClientMsg
  /-- `json.loads` raised `JSONDecodeError`. -/
  | invalidJson (raw : String)
  /-- A JSON object containing a `"text"` key (checked first). -/
  | textMsg (t : String)
  /-- A JSON object without `"text"` but with a `"segments"` key. -/
  | segmentsMsg (segs : List SegItem)
  /-- A JSON object with neither `"text"` nor `"segments"`. -/
  | otherMsg
deriving DecidableEq, Repr

/-- The `for segment in segments` loop of `tts_websocket`
(src/gateway/main.py lines 145-149), started at original segment index `b`.
`oracle i` is the backend stream served to the relay cycle opened for the
segment at original index `i`. Each event is tagged with the index of the
segment whose processing emitted it. A segment without a `"text"` key, or
with blank text, is skipped without any event. If a relay cycle raises, the
exception propagates out of the loop to the handler at main.py line 157,
which sends exactly one error message and abandons the remaining segments. -/
def processSegments (oracle : Nat → BackendStream) :
    List SegItem → Nat → List (Nat × Ev)
  | [], _ => []
  | .noText :: rest, b => processSegments oracle rest (b + 1)
  | .withText t :: rest, b =>
      if isBlank t then processSegments oracle rest (b + 1)
      else
        let r := synthesize_stream_websocket (oracle b)
        match r.2 with
        | .ok => r.1.map (fun e => (b, e)) ++ processSegments oracle rest (b + 1)
        | .raised m =>
            r.1.map (fun e => (b, e)) ++
              [(b, .errorMsg ("TTS generation failed: " ++ m))]

/-- Handling of one received client message inside the `while True` loop of
`tts_websocket` (src/gateway/main.py lines 104-163): the trace of events it
emits. `oracle i` is the backend stream for the i-th... for the relay cycle
of original segment index `i` (index `0` for a single-text message). -/
def handleMessage (oracle : Nat → BackendStream) : ClientMsg → List Ev
  | .invalidJson _ => [.errorMsg "Invalid JSON format"]
  | .textMsg t =>
      if isBlank t then [.errorMsg "Empty text provided"]
      else
        let r := synthesize_stream_websocket (oracle 0)
        match r.2 with
        | .ok => r.1
        | .raised m => r.1 ++ [.errorMsg ("TTS generation failed: " ++ m)]
  | .segmentsMsg segs =>
      if segs.isEmpty then [.errorMsg "Empty segments provided"]
      else (processSegments oracle segs 0).map Prod.snd
  | .otherMsg => []

/-- The `while True` receive loop of `tts_websocket`: the session handles
every received message in order; handling a message never closes the client
connection (only a `WebSocketDisconnect` of the client socket itself, outside
this model, ends the loop). `oracle k i` is the backend stream for relay
cycle `i` of the k-th message. -/
def sessionTrace (oracle : Nat → Nat → BackendStream) : List ClientMsg → List Ev
  | [] => []
  | m :: rest =>
      handleMessage (oracle 0) m ++ sessionTrace (fun k => oracle (k + 1)) rest

/-! ## The one-way echo pipeline `echo_bytes`

src/gateway/main.py lines 175-299. -/

/-- Outcome of `ASRServiceClient.transcribe`: either the parsed JSON result
(whose `"text"` and `"segments"` keys may be absent — `.get` defaults apply),
or a raised exception. -/
inductive AsrOutcome
  | success (textOpt : Option String) (segmentsOpt : Option (List Seg))
  | failure (err : String)
deriving DecidableEq, Repr

/-- The HTTP response of `echo_bytes`: an `HTTPException` or a
`StreamingResponse` (status, ordered headers, body chunks). -/
inductive EchoResponse
  | httpError (status : Nat) (detail : String)
  | stream (status : Nat) (headers : List (String × String))
      (bodyChunks : List (List Nat))
deriving DecidableEq, Repr

/-- Result of one `echo_bytes` invocation: the response, plus whether the
ASR backend was called at all. -/
structure EchoResult where
  response : EchoResponse
  asrCalled : Bool
deriving DecidableEq, Repr

/-- The headers of the degraded (empty) streaming response
(src/gateway/main.py lines 245-251 and 285-292). -/
def emptyEchoHeaders (sr ch : Int) : List (String × String) :=
  [("Content-Type", "application/octet-stream"),
   ("X-Sample-Rate", toString sr),
   ("X-Channels", toString ch),
   ("X-Recognized-Text", ""),
   ("X-Segments", "[]")]

/-- The headers of the successful streaming response
(src/gateway/main.py lines 272-278). -/
def fullEchoHeaders (sr ch : Int) (recognizedText segmentsJson : String) :
    List (String × String) :=
  [("Content-Type", "application/octet-stream"),
   ("X-Sample-Rate", toString sr),
   ("X-Channels", toString ch),
   ("X-Recognized-Text", recognizedText),
   ("X-Segments", segmentsJson)]

/-- `echo_bytes` (src/gateway/main.py lines 175-299). `sr`, `ch` are the
query parameters, `body` the raw request body, `asr` the outcome of the
single `transcribe` call, and `ttsChunks` the audio chunks delivered by
`synthesize_stream_http` before it ends (a mid-stream synthesis failure just
truncates that list; the generator swallows the exception). A
`StreamingResponse` has FastAPI's default status 200. -/
def echo_bytes (sr ch : Int) (body : List Nat) (asr : AsrOutcome)
    (ttsChunks : List (List Nat)) : EchoResult :=
  if sr < 8000 ∨ 48000 < sr then
    ⟨.httpError 400 "Sample rate must be between 8000 and 48000 Hz", false⟩
  else if ch < 1 ∨ 2 < ch then
    ⟨.httpError 400 "Number of channels must be 1 or 2", false⟩
  else if body.isEmpty then
    ⟨.httpError 400 "No audio data provided", false⟩
  else
    match asr with
    | .failure _ => ⟨.stream 200 (emptyEchoHeaders sr ch) [], true⟩
    | .success textOpt segmentsOpt =>
        let recognized_text := textOpt.getD ""
        let segments := segmentsOpt.getD []
        if isBlank recognized_text then
          ⟨.stream 200 (emptyEchoHeaders sr ch) [], true⟩
        else
          ⟨.stream 200
            (fullEchoHeaders sr ch recognized_text (segmentsJsonOf segments))
            ttsChunks, true⟩

/-- FastAPI default values of the `sr` and `ch` query parameters of
`echo_bytes` (src/gateway/main.py lines 178-179): omitted parameters take
these values. -/
def sr_default : Int := 16000

/-- Default of the `ch` query parameter of `echo_bytes`. -/
def ch_default : Int := 1

/-- `echo_bytes` invoked without `sr` and `ch` query parameters. -/
def echo_bytes_default (body : List Nat) (asr : AsrOutcome)
    (ttsChunks : List (List Nat)) : EchoResult :=
  echo_bytes sr_default ch_default body asr ttsChunks

/-- Status code of an `echo_bytes` response. -/
def EchoResponse.statusOf : EchoResponse → Nat
  | .httpError s _ => s
  | .stream s _ _ => s

/-- Header lookup on an `echo_bytes` response (`none` on an error response). -/
def EchoResponse.headerOf (r : EchoResponse) (k : String) : Option String :=
  match r with
  | .httpError _ _ => none
  | .stream _ hs _ => hs.lookup k

/-- Body chunks of an `echo_bytes` response. -/
def EchoResponse.bodyOf : EchoResponse → List (List Nat)
  | .httpError _ _ => []
  | .stream _ _ b => b

/-- Whether an `echo_bytes` response is a `StreamingResponse`. -/
def EchoResponse.isStream : EchoResponse → Bool
  | .httpError _ _ => false
  | .stream _ _ _ => true

/-! ### Temporal trace of one `echo_bytes` invocation -/

/-- Temporally ordered events of one `echo_bytes` invocation. -/
inductive EchoEv
  /-- The `transcribe` call is issued to the ASR backend. -/
  | asrCall
  /-- The `transcribe` call returned (the recognize step completed). -/
  | asrDone
  /-- The response status and headers are committed (the `StreamingResponse`
  preamble is sent). -/
  | commitHeaders (status : Nat) (headers : List (String × String))
  /-- One audio chunk of the response body is sent. -/
  | bodyChunk (c : List Nat)
deriving DecidableEq, Repr

/-- The event trace of one `echo_bytes` invocation, in program order:
validation happens before any backend call; `transcribe` is awaited to
completion; the `StreamingResponse` headers are committed when the response
object is returned, before its body generator yields; body chunks are
yielded in arrival order from `synthesize_stream_http`. -/
def echoTrace (sr ch : Int) (body : List Nat) (asr : AsrOutcome)
    (ttsChunks : List (List Nat)) : List EchoEv :=
  if sr < 8000 ∨ 48000 < sr then []
  else if ch < 1 ∨ 2 < ch then []
  else if body.isEmpty then []
  else
    match asr with
    | .failure _ => [.asrCall, .commitHeaders 200 (emptyEchoHeaders sr ch)]
    | .success textOpt segmentsOpt =>
        let recognized_text := textOpt.getD ""
        let segments := segmentsOpt.getD []
        if isBlank recognized_text then
          [.asrCall, .asrDone, .commitHeaders 200 (emptyEchoHeaders sr ch)]
        else
          [.asrCall, .asrDone,
           .commitHeaders 200
             (fullEchoHeaders sr ch recognized_text (segmentsJsonOf segments))]
            ++ ttsChunks.map .bodyChunk

/-! ## Health aggregation

`ServiceManager.check_services_health` (src/gateway/services.py lines
142-160) and `health_check` (src/gateway/main.py lines 76-94). -/

/-- Why a backend health probe raised instead of returning a response. -/
inductive ProbeError
  | timeout
  | transportError
deriving DecidableEq, Repr

/-- Outcome of one `GET /health` probe against a backend: a response with a
status code, or a raised exception. -/
def ProbeOutcome := Except ProbeError Nat

/-- One `try`/`except` block of `check_services_health`: a response maps to
`status_code == 200`, any raised exception maps to `False`. -/
def probeHealth : ProbeOutcome → Bool
  | .ok code => code == 200
  | .error _ => false

/-- `ServiceManager.check_services_health`: probes both backends and returns
the per-backend booleans; it never raises. -/
def check_services_health (tts asr : ProbeOutcome) : List (String × Bool) :=
  [("tts", probeHealth tts), ("asr", probeHealth asr)]

/-- The response of the gateway `/health` endpoint. -/
structure HealthResponse' where
  status : String
  service : String
  dependencies : List (String × Bool)
deriving DecidableEq, Repr

/-- `health_check` (src/gateway/main.py lines 76-94): aggregates a dependency
map to `"healthy"` iff `all(dependencies.values())`, else `"degraded"`, and
reports the per-backend booleans alongside. -/
def healthAggregate (deps : List (String × Bool)) : HealthResponse' :=
  { status := if deps.all (fun d => d.2) then "healthy" else "degraded"
    service := "gateway"
    dependencies := deps }

/-- The full `/health` endpoint: probe both backends, then aggregate. -/
def health_check (tts asr : ProbeOutcome) : HealthResponse' :=
  healthAggregate (check_services_health tts asr)

/-- Extracts the audio chunk of a body event, if any. -/
def chunkOf : EchoEv → Option (List Nat)
  | .bodyChunk c => some c
  | _ => none

/-! ## Concrete backend behaviours, used to evaluate the theorems below -/

/-- A backend stream delivering one audio frame, then a clean end frame. -/
def okStream : BackendStream :=
  ⟨[BackendFrame.binary [1], BackendFrame.endCtrl], StreamEnd.closed⟩

/-- A backend stream that closes immediately without any frame. -/
def silentStream : BackendStream := ⟨[], StreamEnd.closed⟩

/-- A backend stream delivering one audio frame and then failing at the
transport level. -/
def failStream : BackendStream :=
  ⟨[BackendFrame.binary [7]], StreamEnd.transportError "boom"⟩

/-- A backend stream delivering an error control frame, then closing. -/
def errorFrameStream : BackendStream :=
  ⟨[BackendFrame.errorCtrl "synthesis failed"], StreamEnd.closed⟩

/-- Every relay cycle sees `okStream`. -/
def okOracle : Nat → BackendStream := fun _ => okStream

/-- Every relay cycle sees `silentStream`. -/
def silentOracle : Nat → BackendStream := fun _ => silentStream

/-- The first relay cycle succeeds; every later one hits a transport
failure. -/
def failAtOneOracle : Nat → BackendStream :=
  fun i => if i = 0 then okStream else failStream

/-- A two-segment request with well-formed texts. -/
def twoSegs : List SegItem := [SegItem.withText "a", SegItem.withText "b"]

/-- A request whose first segment lacks a text field. -/
def skipSegs : List SegItem := [SegItem.noText, SegItem.withText "a"]

/-! ## Trace bookkeeping -/

/-- Whether an event is a client-visible error message. -/
def isErrEv : Ev → Bool
  | .errorMsg _ => true
  | _ => false

/-- Number of client-visible error messages in a trace. -/
def errCount (l : List Ev) : Nat := l.countP isErrEv

/-- Number of ephemeral backend connections open after the events `l`:
openings minus closings. -/
def netOpen (l : List Ev) : Int :=
  (l.countP (fun e => decide (e = Ev.openConn)) : Int)
    - (l.countP (fun e => decide (e = Ev.closeConn)) : Int)

/-- A trace that never opens or closes the ephemeral connection. -/
def ConnFree (l : List Ev) : Prop :=
  ∀ e ∈ l, e ≠ Ev.openConn ∧ e ≠ Ev.closeConn

/-- The single-flight invariant: after any event of the trace, at most one
(and never a negative number of) ephemeral backend connection is open. -/
def AtMostOneOpen (l : List Ev) : Prop :=
  ∀ n, 0 ≤ netOpen (l.take n) ∧ netOpen (l.take n) ≤ 1

lemma netOpen_nil : netOpen [] = 0 := by decide

lemma netOpen_append (a b : List Ev) : netOpen (a ++ b) = netOpen a + netOpen b := by
  simp only [netOpen, List.countP_append]
  push_cast
  ring

lemma errCount_append (a b : List Ev) : errCount (a ++ b) = errCount a + errCount b :=
  List.countP_append _ a b

lemma netOpen_cons (e : Ev) (l : List Ev) : netOpen (e :: l) = netOpen [e] + netOpen l := by
  rw [show e :: l = [e] ++ l from rfl, netOpen_append]

lemma connFree_netOpen {l : List Ev} (h : ConnFree l) : netOpen l = 0 := by
  have h1 : l.countP (fun e => decide (e = Ev.openConn)) = 0 :=
    List.countP_eq_zero.2 (fun a ha => by simpa using (h a ha).1)
  have h2 : l.countP (fun e => decide (e = Ev.closeConn)) = 0 :=
    List.countP_eq_zero.2 (fun a ha => by simpa using (h a ha).2)
  simp [netOpen, h1, h2]

lemma connFree_take {l : List Ev} (h : ConnFree l) (n : Nat) : ConnFree (l.take n) :=
  fun e he => h e (List.take_subset n l he)

lemma connFree_nil : ConnFree [] := by intro e he; simp at he

lemma connFree_singleton_err (m : String) : ConnFree [Ev.errorMsg m] := by
  intro e he
  simp only [List.mem_singleton] at he
  subst he
  exact ⟨by simp, by simp⟩

lemma relayFrames_mem (fs : List BackendFrame) (en : StreamEnd) :
    ∀ e ∈ (relayFrames fs en).1, (∃ p, e = Ev.audio p) ∨ e = Ev.endMarker := by
  induction fs with
  | nil => cases en <;> intro e he <;> simp [relayFrames] at he
  | cons f rest ih =>
    cases f with
    | binary p =>
        intro e he
        simp only [relayFrames] at he
        rcases List.mem_cons.mp he with h | h
        · exact Or.inl ⟨p, h⟩
        · exact ih e h
    | endCtrl =>
        intro e he
        simp only [relayFrames, List.mem_singleton] at he
        exact Or.inr he
    | errorCtrl m => intro e he; exact ih e (by simpa [relayFrames] using he)
    | otherJson s => intro e he; exact ih e (by simpa [relayFrames] using he)
    | nonJson s => intro e he; exact ih e (by simpa [relayFrames] using he)

lemma relayFrames_connFree (fs : List BackendFrame) (en : StreamEnd) :
    ConnFree (relayFrames fs en).1 := by
  intro e he
  rcases relayFrames_mem fs en e he with ⟨p, rfl⟩ | rfl <;> exact ⟨by simp, by simp⟩

lemma relayFrames_errCount (fs : List BackendFrame) (en : StreamEnd) :
    errCount (relayFrames fs en).1 = 0 :=
  List.countP_eq_zero.2 (fun e he => by
    rcases relayFrames_mem fs en e he with ⟨p, rfl⟩ | rfl <;> simp [isErrEv])

lemma synth_events (s : BackendStream) :
    (synthesize_stream_websocket s).1 =
      Ev.openConn :: (relayFrames s.frames s.ending).1 ++ [Ev.closeConn] := rfl

lemma synth_netOpen (s : BackendStream) :
    netOpen (synthesize_stream_websocket s).1 = 0 := by
  rw [synth_events, List.cons_append, netOpen_cons, netOpen_append,
    connFree_netOpen (relayFrames_connFree s.frames s.ending)]
  decide

lemma synth_errCount (s : BackendStream) :
    errCount (synthesize_stream_websocket s).1 = 0 := by
  have h := relayFrames_errCount s.frames s.ending
  rw [synth_events, show Ev.openConn :: (relayFrames s.frames s.ending).1 ++ [Ev.closeConn]
      = [Ev.openConn] ++ (relayFrames s.frames s.ending).1 ++ [Ev.closeConn] from rfl,
    errCount_append, errCount_append, h]
  decide

lemma atMostOne_block (mid extra : List Ev) (h1 : ConnFree mid) (h2 : ConnFree extra) :
    AtMostOneOpen (Ev.openConn :: mid ++ Ev.closeConn :: extra) := by
  intro n
  cases n with
  | zero => simp [netOpen_nil]
  | succ k =>
      rw [List.cons_append, List.take_succ_cons, netOpen_cons,
        List.take_append_eq_append_take, netOpen_append,
        connFree_netOpen (connFree_take h1 k)]
      rcases hk : k - mid.length with _ | j
      · rw [List.take_zero, netOpen_nil]
        constructor <;> decide
      · rw [List.take_succ_cons, netOpen_cons Ev.closeConn _,
          connFree_netOpen (connFree_take h2 j)]
        constructor <;> decide

lemma netOpen_block (mid extra : List Ev) (h1 : ConnFree mid) (h2 : ConnFree extra) :
    netOpen (Ev.openConn :: mid ++ Ev.closeConn :: extra) = 0 := by
  rw [List.cons_append, netOpen_cons Ev.openConn _, netOpen_append,
    netOpen_cons Ev.closeConn extra, connFree_netOpen h1, connFree_netOpen h2]
  decide

lemma atMostOne_nil : AtMostOneOpen [] := by
  intro n
  simp [netOpen_nil]

lemma atMostOne_append {a b : List Ev} (ha : AtMostOneOpen a) (ha0 : netOpen a = 0)
    (hb : AtMostOneOpen b) : AtMostOneOpen (a ++ b) := by
  intro n
  rw [List.take_append_eq_append_take, netOpen_append]
  by_cases h : n ≤ a.length
  · have h0 : n - a.length = 0 := by omega
    rw [h0]
    have := ha n
    simp only [List.take_zero, netOpen_nil]
    omega
  · rw [List.take_of_length_le (by omega), ha0]
    have := hb (n - a.length)
    omega

/-! ## Structure of the segments loop -/

lemma processSegments_nil (oracle : Nat → BackendStream) (b : Nat) :
    processSegments oracle [] b = [] := rfl

lemma processSegments_noText (oracle : Nat → BackendStream) (rest : List SegItem) (b : Nat) :
    processSegments oracle (SegItem.noText :: rest) b =
      processSegments oracle rest (b + 1) := rfl

lemma processSegments_blank (oracle : Nat → BackendStream) (t : String) (rest : List SegItem)
    (b : Nat) (ht : isBlank t = true) :
    processSegments oracle (SegItem.withText t :: rest) b =
      processSegments oracle rest (b + 1) := by
  simp [processSegments, ht]

lemma processSegments_ok (oracle : Nat → BackendStream) (t : String) (rest : List SegItem)
    (b : Nat) (ht : isBlank t = false)
    (hres : (synthesize_stream_websocket (oracle b)).2 = RelayResult.ok) :
    processSegments oracle (SegItem.withText t :: rest) b =
      (synthesize_stream_websocket (oracle b)).1.map (fun e => (b, e))
        ++ processSegments oracle rest (b + 1) := by
  simp [processSegments, ht, hres]

lemma processSegments_raised (oracle : Nat → BackendStream) (t : String) (rest : List SegItem)
    (b : Nat) (m : String) (ht : isBlank t = false)
    (hres : (synthesize_stream_websocket (oracle b)).2 = RelayResult.raised m) :
    processSegments oracle (SegItem.withText t :: rest) b =
      (synthesize_stream_websocket (oracle b)).1.map (fun e => (b, e))
        ++ [(b, Ev.errorMsg ("TTS generation failed: " ++ m))] := by
  simp [processSegments, ht, hres]

/-- Every event of the segments loop is tagged with the original index of a
segment that carries non-blank text. -/
lemma processSegments_mem_tag (oracle : Nat → BackendStream) :
    ∀ (segs : List SegItem) (b : Nat), ∀ x ∈ processSegments oracle segs b,
      ∃ j t, segs[j]? = some (SegItem.withText t) ∧ isBlank t = false ∧
        x.1 = b + j := by
  intro segs
  induction segs with
  | nil => intro b x hx; simp [processSegments_nil] at hx
  | cons s rest ih =>
    intro b x hx
    cases s with
    | noText =>
        rw [processSegments_noText] at hx
        rcases ih (b + 1) x hx with ⟨j, t, hj, ht, hx1⟩
        exact ⟨j + 1, t, by simpa using hj, ht, by omega⟩
    | withText t2 =>
        cases hbl : isBlank t2 with
        | true =>
            rw [processSegments_blank oracle t2 rest b hbl] at hx
            rcases ih (b + 1) x hx with ⟨j, t, hj, ht, hx1⟩
            exact ⟨j + 1, t, by simpa using hj, ht, by omega⟩
        | false =>
            cases hres : (synthesize_stream_websocket (oracle b)).2 with
            | ok =>
                rw [processSegments_ok oracle t2 rest b hbl hres] at hx
                rcases List.mem_append.mp hx with h | h
                · rcases List.mem_map.mp h with ⟨e, he, rfl⟩
                  exact ⟨0, t2, by simp, hbl, by simp⟩
                · rcases ih (b + 1) x h with ⟨j, t, hj, ht, hx1⟩
                  exact ⟨j + 1, t, by simpa using hj, ht, by omega⟩
            | raised m =>
                rw [processSegments_raised oracle t2 rest b m hbl hres] at hx
                rcases List.mem_append.mp hx with h | h
                · rcases List.mem_map.mp h with ⟨e, he, rfl⟩
                  exact ⟨0, t2, by simp, hbl, by simp⟩
                · simp only [List.mem_singleton] at h
                  subst h
                  exact ⟨0, t2, by simp, hbl, by simp⟩

lemma processSegments_tag_lb (oracle : Nat → BackendStream) (segs : List SegItem) (b : Nat) :
    ∀ x ∈ processSegments oracle segs b, b ≤ x.1 := by
  intro x hx
  rcases processSegments_mem_tag oracle segs b x hx with ⟨j, t, _, _, hx1⟩
  omega

lemma sorted_of_all_eq {l : List Nat} {c : Nat} (h : ∀ x ∈ l, x = c) :
    l.Sorted (· ≤ ·) := by
  induction l with
  | nil => exact List.sorted_nil
  | cons a tl ih =>
      rw [List.sorted_cons]
      refine ⟨fun d hd => ?_, ih (fun x hx => h x (List.mem_cons_of_mem a hx))⟩
      rw [h a (List.mem_cons_self a tl), h d (List.mem_cons_of_mem a hd)]

/-- The segment tags of the loop's trace are nondecreasing: the loop handles
segments strictly in their given order. -/
lemma processSegments_tags_sorted (oracle : Nat → BackendStream) :
    ∀ (segs : List SegItem) (b : Nat),
      ((processSegments oracle segs b).map Prod.fst).Sorted (· ≤ ·) := by
  intro segs
  induction segs with
  | nil =>
      intro b
      rw [processSegments_nil]
      exact List.sorted_nil
  | cons s rest ih =>
    intro b
    cases s with
    | noText =>
        rw [processSegments_noText]
        exact ih (b + 1)
    | withText t2 =>
        cases hbl : isBlank t2 with
        | true =>
            rw [processSegments_blank oracle t2 rest b hbl]
            exact ih (b + 1)
        | false =>
            cases hres : (synthesize_stream_websocket (oracle b)).2 with
            | ok =>
                rw [processSegments_ok oracle t2 rest b hbl hres, List.map_append]
                refine List.pairwise_append.mpr ⟨?_, ih (b + 1), ?_⟩
                · exact sorted_of_all_eq (fun x hx => by
                    rcases List.mem_map.mp hx with ⟨y, hy, rfl⟩
                    rcases List.mem_map.mp hy with ⟨e, he, rfl⟩
                    rfl)
                · intro a ha c hc
                  rcases List.mem_map.mp ha with ⟨y, hy, rfl⟩
                  rcases List.mem_map.mp hy with ⟨e, he, rfl⟩
                  rcases List.mem_map.mp hc with ⟨z, hz, rfl⟩
                  have := processSegments_tag_lb oracle rest (b + 1) z hz
                  show b ≤ z.1
                  omega
            | raised m =>
                rw [processSegments_raised oracle t2 rest b m hbl hres, List.map_append]
                refine List.pairwise_append.mpr ⟨?_, ?_, ?_⟩
                · exact sorted_of_all_eq (fun x hx => by
                    rcases List.mem_map.mp hx with ⟨y, hy, rfl⟩
                    rcases List.mem_map.mp hy with ⟨e, he, rfl⟩
                    rfl)
                · exact sorted_of_all_eq (fun x hx => by simpa using hx)
                · intro a ha c hc
                  rcases List.mem_map.mp ha with ⟨y, hy, rfl⟩
                  rcases List.mem_map.mp hy with ⟨e, he, rfl⟩
                  have hc' : c = b := by simpa using hc
                  show b ≤ c
                  omega

lemma sorted_getElem?_le {l : List Nat} (hs : l.Sorted (· ≤ ·)) {p q a c : Nat}
    (hpq : p ≤ q) (hp : l[p]? = some a) (hq : l[q]? = some c) : a ≤ c := by
  rcases List.getElem?_eq_some.mp hp with ⟨hp', ha⟩
  rcases List.getElem?_eq_some.mp hq with ⟨hq', hc⟩
  subst ha hc
  rcases Nat.lt_or_ge p q with h | h
  · have := hs.rel_get_of_lt (a := (⟨p, hp'⟩ : Fin l.length))
      (b := (⟨q, hq'⟩ : Fin l.length)) (Fin.mk_lt_mk.mpr h)
    simpa [List.get_eq_getElem] using this
  · have hpq' : p = q := by omega
    subst hpq'
    exact le_refl _

/-- The single-flight and balance invariants for the whole segments loop. -/
lemma processSegments_connInv (oracle : Nat → BackendStream) :
    ∀ (segs : List SegItem) (b : Nat),
      AtMostOneOpen ((processSegments oracle segs b).map Prod.snd) ∧
      netOpen ((processSegments oracle segs b).map Prod.snd) = 0 := by
  intro segs
  induction segs with
  | nil =>
      intro b
      rw [processSegments_nil]
      exact ⟨atMostOne_nil, netOpen_nil⟩
  | cons s rest ih =>
    intro b
    cases s with
    | noText =>
        rw [processSegments_noText]
        exact ih (b + 1)
    | withText t2 =>
        cases hbl : isBlank t2 with
        | true =>
            rw [processSegments_blank oracle t2 rest b hbl]
            exact ih (b + 1)
        | false =>
            have hble : (synthesize_stream_websocket (oracle b)).1
                = Ev.openConn :: (relayFrames (oracle b).frames (oracle b).ending).1
                    ++ [Ev.closeConn] := synth_events (oracle b)
            cases hres : (synthesize_stream_websocket (oracle b)).2 with
            | ok =>
                rw [processSegments_ok oracle t2 rest b hbl hres, List.map_append]
                have hsnd : (((synthesize_stream_websocket (oracle b)).1.map
                    (fun e => (b, e))).map Prod.snd)
                    = (synthesize_stream_websocket (oracle b)).1 := by simp
                rw [hsnd]
                refine ⟨atMostOne_append ?_ (synth_netOpen (oracle b)) (ih (b + 1)).1, ?_⟩
                · rw [hble]
                  exact atMostOne_block _ []
                    (relayFrames_connFree (oracle b).frames (oracle b).ending) connFree_nil
                · rw [netOpen_append, synth_netOpen, (ih (b + 1)).2]
                  decide
            | raised m =>
                rw [processSegments_raised oracle t2 rest b m hbl hres, List.map_append]
                have hsnd : (((synthesize_stream_websocket (oracle b)).1.map
                    (fun e => (b, e))).map Prod.snd)
                    = (synthesize_stream_websocket (oracle b)).1 := by simp
                rw [hsnd]
                have hshape : (synthesize_stream_websocket (oracle b)).1
                    ++ ([(b, Ev.errorMsg ("TTS generation failed: " ++ m))].map Prod.snd)
                    = Ev.openConn :: (relayFrames (oracle b).frames (oracle b).ending).1
                        ++ Ev.closeConn :: [Ev.errorMsg ("TTS generation failed: " ++ m)] := by
                  rw [hble]
                  simp
                rw [hshape]
                refine ⟨atMostOne_block _ _
                    (relayFrames_connFree (oracle b).frames (oracle b).ending)
                    (connFree_singleton_err _), ?_⟩
                exact netOpen_block _ _
                  (relayFrames_connFree (oracle b).frames (oracle b).ending)
                  (connFree_singleton_err _)

/-- When every relay cycle succeeds, each segment carrying non-blank text
does get its own relay cycle (witnessed by the opening of its ephemeral
backend connection). -/
lemma processSegments_open_mem (oracle : Nat → BackendStream)
    (hok : ∀ i, (synthesize_stream_websocket (oracle i)).2 = RelayResult.ok) :
    ∀ (segs : List SegItem) (b i : Nat) (t : String),
      segs[i]? = some (SegItem.withText t) → isBlank t = false →
      (b + i, Ev.openConn) ∈ processSegments oracle segs b := by
  intro segs
  induction segs with
  | nil => intro b i t h _; simp at h
  | cons s rest ih =>
      intro b i t hseg ht
      cases i with
      | zero =>
          have hs : s = SegItem.withText t := by simpa using hseg
          subst hs
          rw [processSegments_ok oracle t rest b ht (hok b)]
          apply List.mem_append_left
          rw [synth_events]
          exact List.mem_map.mpr ⟨Ev.openConn, by simp, by simp⟩
      | succ i2 =>
          have hseg2 : rest[i2]? = some (SegItem.withText t) := by simpa using hseg
          have hmem := ih (b + 1) i2 t hseg2 ht
          have harith : b + (i2 + 1) = b + 1 + i2 := by omega
          rw [harith]
          cases s with
          | noText =>
              rw [processSegments_noText]
              exact hmem
          | withText t2 =>
              cases hbl : isBlank t2 with
              | true =>
                  rw [processSegments_blank oracle t2 rest b hbl]
                  exact hmem
              | false =>
                  rw [processSegments_ok oracle t2 rest b hbl (hok b)]
                  exact List.mem_append_right _ hmem

/-- A transport failure drops out of the frame loop as a raised exception
when no `end` control frame arrives first. -/
lemma relayFrames_raised (frames : List BackendFrame) (m : String)
    (h : BackendFrame.endCtrl ∉ frames) :
    (relayFrames frames (StreamEnd.transportError m)).2 = RelayResult.raised m := by
  induction frames with
  | nil => rfl
  | cons f rest ih =>
      cases f with
      | binary p =>
          simp only [relayFrames]
          exact ih (fun hm => h (List.mem_cons_of_mem _ hm))
      | endCtrl => exact absurd (List.mem_cons_self _ _) h
      | errorCtrl m2 =>
          simp only [relayFrames]
          exact ih (fun hm => h (List.mem_cons_of_mem _ hm))
      | otherJson s =>
          simp only [relayFrames]
          exact ih (fun hm => h (List.mem_cons_of_mem _ hm))
      | nonJson s =>
          simp only [relayFrames]
          exact ih (fun hm => h (List.mem_cons_of_mem _ hm))

/-- If the first failing relay cycle is the one for the segment at original
index `b + j` (all processed segments before it succeed), the segments loop
emits exactly one error message, ends on it, never touches a segment after
`b + j`, and leaves no backend connection open. -/
lemma relay_failure_aux (oracle : Nat → BackendStream) (m : String) :
    ∀ (segs : List SegItem) (b j : Nat) (t : String),
      segs[j]? = some (SegItem.withText t) → isBlank t = false →
      (∀ i, b ≤ i → i < b + j →
        (synthesize_stream_websocket (oracle i)).2 = RelayResult.ok) →
      (synthesize_stream_websocket (oracle (b + j))).2 = RelayResult.raised m →
      errCount ((processSegments oracle segs b).map Prod.snd) = 1 ∧
      (processSegments oracle segs b).getLast? =
        some (b + j, Ev.errorMsg ("TTS generation failed: " ++ m)) ∧
      (∀ x ∈ processSegments oracle segs b, x.1 ≤ b + j) ∧
      netOpen ((processSegments oracle segs b).map Prod.snd) = 0 := by
  intro segs
  induction segs with
  | nil => intro b j t h _ _ _; simp at h
  | cons s rest ih =>
      intro b j t hseg ht hok hfail
      cases j with
      | zero =>
          have hs : s = SegItem.withText t := by simpa using hseg
          subst hs
          have hfail2 : (synthesize_stream_websocket (oracle b)).2
              = RelayResult.raised m := by simpa using hfail
          rw [processSegments_raised oracle t rest b m ht hfail2]
          have hsnd : (((synthesize_stream_websocket (oracle b)).1.map (fun e => (b, e)))
              ++ [(b, Ev.errorMsg ("TTS generation failed: " ++ m))]).map Prod.snd
              = (synthesize_stream_websocket (oracle b)).1
                ++ [Ev.errorMsg ("TTS generation failed: " ++ m)] := by
            simp
          refine ⟨?_, ?_, ?_, ?_⟩
          · rw [hsnd, errCount_append, synth_errCount]
            rfl
          · exact List.getLast?_concat _
          · intro x hx
            rcases List.mem_append.mp hx with h | h
            · rcases List.mem_map.mp h with ⟨e, he, rfl⟩
              show b ≤ b + 0
              omega
            · simp only [List.mem_singleton] at h
              subst h
              show b ≤ b + 0
              omega
          · rw [hsnd, netOpen_append, synth_netOpen,
              connFree_netOpen (connFree_singleton_err _)]
            decide
      | succ j2 =>
          have hseg2 : rest[j2]? = some (SegItem.withText t) := by simpa using hseg
          have hok2 : ∀ i, b + 1 ≤ i → i < b + 1 + j2 →
              (synthesize_stream_websocket (oracle i)).2 = RelayResult.ok :=
            fun i h1 h2 => hok i (by omega) (by omega)
          have hfail2 : (synthesize_stream_websocket (oracle (b + 1 + j2))).2
              = RelayResult.raised m := by
            rw [show b + 1 + j2 = b + (j2 + 1) from by omega]
            exact hfail
          rcases ih (b + 1) j2 t hseg2 ht hok2 hfail2 with ⟨h1, h2, h3, h4⟩
          have harith : b + (j2 + 1) = b + 1 + j2 := by omega
          cases s with
          | noText =>
              rw [processSegments_noText]
              refine ⟨h1, ?_, ?_, h4⟩
              · rw [harith]
                exact h2
              · intro x hx
                have := h3 x hx
                omega
          | withText t2 =>
              cases hbl : isBlank t2 with
              | true =>
                  rw [processSegments_blank oracle t2 rest b hbl]
                  refine ⟨h1, ?_, ?_, h4⟩
                  · rw [harith]
                    exact h2
                  · intro x hx
                    have := h3 x hx
                    omega
              | false =>
                  have hokb : (synthesize_stream_websocket (oracle b)).2 = RelayResult.ok :=
                    hok b (by omega) (by omega)
                  rw [processSegments_ok oracle t2 rest b hbl hokb]
                  have hne : processSegments oracle rest (b + 1) ≠ [] := by
                    intro h0
                    rw [h0] at h2
                    simp at h2
                  have hsnd : (((synthesize_stream_websocket (oracle b)).1.map
                      (fun e => (b, e))).map Prod.snd)
                      = (synthesize_stream_websocket (oracle b)).1 := by simp
                  refine ⟨?_, ?_, ?_, ?_⟩
                  · rw [List.map_append, errCount_append, hsnd, synth_errCount, h1]
                  · rw [List.getLast?_append_of_ne_nil _ hne, harith]
                    exact h2
                  · intro x hx
                    rcases List.mem_append.mp hx with h | h
                    · rcases List.mem_map.mp h with ⟨e, he, rfl⟩
                      show b ≤ b + (j2 + 1)
                      omega
                    · have := h3 x h
                      omega
                  · rw [List.map_append, netOpen_append, hsnd, synth_netOpen, h4]
                    decide

lemma chunkOf_map (tts : List (List Nat)) :
    (tts.map EchoEv.bodyChunk).filterMap chunkOf = tts := by
  induction tts with
  | nil => rfl
  | cons c rest ih => simp [List.filterMap_cons, chunkOf, ih]

/-! ## The claims -/

/-- **C1**: for every full-duplex `{segments: [...]}` message, the relay
processes the segments strictly sequentially: the client-visible end marker
emitted while processing segment `i` occurs in the trace strictly before
any audio frame emitted while processing segment `i+1`; and at any instant
at most one ephemeral backend synthesis connection is open (and never a
negative number). -/
theorem C1_segments_sequential_single_flight (oracle : Nat → BackendStream)
    (segs : List SegItem) :
    (∀ (p q i : Nat) (pl : List Nat),
        (processSegments oracle segs 0)[p]? = some (i, Ev.endMarker) →
        (processSegments oracle segs 0)[q]? = some (i + 1, Ev.audio pl) →
        p < q) ∧
    AtMostOneOpen ((processSegments oracle segs 0).map Prod.snd) := by
  refine ⟨?_, (processSegments_connInv oracle segs 0).1⟩
  intro p q i pl hp hq
  by_contra hpq
  push_neg at hpq
  have hs := processSegments_tags_sorted oracle segs 0
  have hp2 : ((processSegments oracle segs 0).map Prod.fst)[p]? = some i := by
    rw [List.getElem?_map, hp]
    rfl
  have hq2 : ((processSegments oracle segs 0).map Prod.fst)[q]? = some (i + 1) := by
    rw [List.getElem?_map, hq]
    rfl
  have := sorted_getElem?_le hs hpq hq2 hp2
  omega

/-- Evaluation of C1 on the message `{segments:[{text:"a"},{text:"b"}]}`
with a well-behaved backend: the end marker of segment 0 (trace position 2)
precedes the first audio frame of segment 1 (trace position 5), and after
five events exactly one connection is open. -/
theorem C1_segments_sequential_single_flight_witness :
    (2 : Nat) < 5 ∧
    netOpen (((processSegments okOracle twoSegs 0).map Prod.snd).take 5) ≤ 1 :=
  ⟨(C1_segments_sequential_single_flight okOracle twoSegs).1 2 5 0 [1]
      (by decide) (by decide),
   ((C1_segments_sequential_single_flight okOracle twoSegs).2 5).2⟩

/-- **C2**, counterexample: a relay cycle in which the backend delivers an
error control frame (`'{"error": "synthesis failed"}'`) and then closes
emits NO client-visible error message at all — the frame is silently
ignored by the loop at src/gateway/services.py lines 59-67, which only
reacts to `type == "end"` — refuting "the gateway emits exactly one
client-visible error message" for the error-control-frame case. -/
theorem C2_error_frame_counterexample :
    handleMessage (fun _ => errorFrameStream) (ClientMsg.textMsg "hi")
      = [Ev.openConn, Ev.closeConn] ∧
    errCount (handleMessage (fun _ => errorFrameStream) (ClientMsg.textMsg "hi")) = 0 := by
  constructor <;> decide

/-- **C2** (amended): for every relay cycle in which the backend TRANSPORT
fails (the connection drops without a prior `end` control frame), the
gateway emits exactly one client-visible error message carrying the failure
description as its last event, closes the ephemeral backend connection
(the trace is balanced), abandons all remaining queued segments (no event
is tagged past the failing segment), and returns to awaiting the next
client message without closing the client session. A backend ERROR CONTROL
FRAME, by contrast, is silently ignored by the relay loop and produces no
client-visible error (see the counterexample). -/
theorem C2_transport_failure_single_error (oracle : Nat → BackendStream)
    (segs : List SegItem) (j : Nat) (t m : String) (frames : List BackendFrame)
    (hseg : segs[j]? = some (SegItem.withText t))
    (ht : isBlank t = false)
    (hok : ∀ i, i < j → (synthesize_stream_websocket (oracle i)).2 = RelayResult.ok)
    (hfail : oracle j = ⟨frames, StreamEnd.transportError m⟩)
    (hnoend : BackendFrame.endCtrl ∉ frames) :
    errCount ((processSegments oracle segs 0).map Prod.snd) = 1 ∧
    (processSegments oracle segs 0).getLast? =
      some (j, Ev.errorMsg ("TTS generation failed: " ++ m)) ∧
    (∀ x ∈ processSegments oracle segs 0, x.1 ≤ j) ∧
    netOpen ((processSegments oracle segs 0).map Prod.snd) = 0 ∧
    (∀ (oracle2 : Nat → Nat → BackendStream) (rest : List ClientMsg),
        sessionTrace oracle2 (ClientMsg.segmentsMsg segs :: rest) =
          handleMessage (oracle2 0) (ClientMsg.segmentsMsg segs) ++
            sessionTrace (fun k => oracle2 (k + 1)) rest) := by
  have hfail2 : (synthesize_stream_websocket (oracle (0 + j))).2
      = RelayResult.raised m := by
    rw [show (0 : Nat) + j = j from by omega]
    have hproj : (synthesize_stream_websocket (oracle j)).2
        = (relayFrames (oracle j).frames (oracle j).ending).2 := rfl
    rw [hproj, hfail]
    exact relayFrames_raised frames m hnoend
  rcases relay_failure_aux oracle m segs 0 j t hseg ht
      (fun i hge hlt => hok i (by omega)) hfail2 with ⟨h1, h2, h3, h4⟩
  refine ⟨h1, by simpa using h2, ?_, h4, fun oracle2 rest => rfl⟩
  intro x hx
  have := h3 x hx
  omega

/-- Evaluation of the amended C2 on `{segments:[{text:"a"},{text:"b"}]}`
where the cycle for segment 1 hits a transport failure: exactly one error
message, and the trace ends on it. -/
theorem C2_transport_failure_single_error_witness :
    errCount ((processSegments failAtOneOracle twoSegs 0).map Prod.snd) = 1 ∧
    (processSegments failAtOneOracle twoSegs 0).getLast? =
      some (1, Ev.errorMsg ("TTS generation failed: " ++ "boom")) :=
  ⟨(C2_transport_failure_single_error failAtOneOracle twoSegs 1 "b" "boom"
      [BackendFrame.binary [7]] (by decide) (by decide)
      (fun i hi => by
        have h0 : i = 0 := by omega
        subst h0
        decide)
      (by decide) (by decide)).1,
   (C2_transport_failure_single_error failAtOneOracle twoSegs 1 "b" "boom"
      [BackendFrame.binary [7]] (by decide) (by decide)
      (fun i hi => by
        have h0 : i = 0 := by omega
        subst h0
        decide)
      (by decide) (by decide)).2.1⟩

/-- **C3**, counterexample: a well-formed JSON object carrying neither a
`text` nor a `segments` field falls through both branches of
`tts_websocket` (src/gateway/main.py lines 113-149) silently: zero error
messages are sent, refuting "the gateway sends exactly one client-visible
error message" for this malformed input. -/
theorem C3_missing_fields_counterexample :
    handleMessage (fun _ => silentStream) ClientMsg.otherMsg = [] ∧
    errCount (handleMessage (fun _ => silentStream) ClientMsg.otherMsg) = 0 := by
  constructor <;> rfl

/-- **C3** (amended): unparsable JSON, a blank `text` string and an empty
`segments` list each yield exactly one client-visible error message, while
a payload with neither field yields no message at all (it is silently
ignored); in every case the session continues to await and process the
next client message — malformed input never closes the connection. -/
theorem C3_malformed_input_handling (oracle : Nat → BackendStream)
    (oracle2 : Nat → Nat → BackendStream) (raw t : String)
    (ht : isBlank t = true) (msg : ClientMsg) (rest : List ClientMsg) :
    handleMessage oracle (ClientMsg.invalidJson raw)
      = [Ev.errorMsg "Invalid JSON format"] ∧
    handleMessage oracle (ClientMsg.textMsg t)
      = [Ev.errorMsg "Empty text provided"] ∧
    handleMessage oracle (ClientMsg.segmentsMsg [])
      = [Ev.errorMsg "Empty segments provided"] ∧
    handleMessage oracle ClientMsg.otherMsg = [] ∧
    sessionTrace oracle2 (msg :: rest) =
      handleMessage (oracle2 0) msg ++ sessionTrace (fun k => oracle2 (k + 1)) rest := by
  refine ⟨rfl, ?_, rfl, rfl, rfl⟩
  simp [handleMessage, ht]

/-- Evaluation of the amended C3: the empty text message `{"text": ""}`
yields exactly the one error frame. -/
theorem C3_malformed_input_handling_witness :
    handleMessage silentOracle (ClientMsg.textMsg "")
      = [Ev.errorMsg "Empty text provided"] :=
  (C3_malformed_input_handling silentOracle (fun _ _ => silentStream) "x" ""
    (by decide) ClientMsg.otherMsg []).2.1

/-- **C4**: whenever the recognize call fails, or succeeds with empty or
whitespace-only text, the one-way pipeline responds with the default
success status 200, a zero-length chunked body, `X-Recognized-Text` set to
the empty string and `X-Segments` set to `"[]"` — a degrade, never an
error status. -/
theorem C4_empty_recognition_degrades (sr ch : Int) (body : List Nat)
    (asr : AsrOutcome) (tts : List (List Nat))
    (hsr1 : 8000 ≤ sr) (hsr2 : sr ≤ 48000) (hch1 : 1 ≤ ch) (hch2 : ch ≤ 2)
    (hbody : body ≠ [])
    (hdeg : (∃ e, asr = AsrOutcome.failure e) ∨
      ∃ tOpt sOpt, asr = AsrOutcome.success tOpt sOpt ∧
        isBlank (tOpt.getD "") = true) :
    (echo_bytes sr ch body asr tts).response
      = EchoResponse.stream 200 (emptyEchoHeaders sr ch) [] ∧
    (emptyEchoHeaders sr ch).lookup "X-Recognized-Text" = some "" ∧
    (emptyEchoHeaders sr ch).lookup "X-Segments" = some "[]" := by
  have h1 : ¬(sr < 8000 ∨ 48000 < sr) := by omega
  have h2 : ¬(ch < 1 ∨ 2 < ch) := by omega
  have h3 : body.isEmpty = false := by
    cases body with
    | nil => exact absurd rfl hbody
    | cons a l => rfl
  refine ⟨?_, rfl, rfl⟩
  rcases hdeg with ⟨e, rfl⟩ | ⟨tOpt, sOpt, rfl, htext⟩
  · simp [echo_bytes, h1, h2, h3]
  · simp [echo_bytes, h1, h2, h3, htext]

/-- Evaluation of C4: a failing recognize call on a valid request yields the
degraded empty response. -/
theorem C4_empty_recognition_degrades_witness :
    (echo_bytes 16000 1 [0] (AsrOutcome.failure "asr down") []).response
      = EchoResponse.stream 200 (emptyEchoHeaders 16000 1) [] :=
  (C4_empty_recognition_degrades 16000 1 [0] (AsrOutcome.failure "asr down") []
    (by decide) (by decide) (by decide) (by decide) (by decide)
    (Or.inl ⟨"asr down", rfl⟩)).1

/-- **C5**: `sr` outside `[8000, 48000]`, or `ch` outside `{1, 2}`, or an
empty request body, is rejected with HTTP 400 before the ASR backend is
called; in particular the empty-body rejection holds for every in-range
`sr` and `ch`. -/
theorem C5_validation_rejects_before_backend (sr ch : Int) (body : List Nat)
    (asr : AsrOutcome) (tts : List (List Nat))
    (h : sr < 8000 ∨ 48000 < sr ∨ ch < 1 ∨ 2 < ch ∨ body = []) :
    (∃ d, (echo_bytes sr ch body asr tts).response = EchoResponse.httpError 400 d) ∧
    (echo_bytes sr ch body asr tts).asrCalled = false := by
  by_cases h1 : sr < 8000 ∨ 48000 < sr
  · refine ⟨⟨"Sample rate must be between 8000 and 48000 Hz", ?_⟩, ?_⟩ <;>
      simp [echo_bytes, h1]
  · by_cases h2 : ch < 1 ∨ 2 < ch
    · refine ⟨⟨"Number of channels must be 1 or 2", ?_⟩, ?_⟩ <;>
        simp [echo_bytes, h1, h2]
    · have hb : body = [] := by tauto
      subst hb
      refine ⟨⟨"No audio data provided", ?_⟩, ?_⟩ <;> simp [echo_bytes, h1, h2]

/-- Evaluation of C5: a request with `sr = 7999` is rejected without any
backend call. -/
theorem C5_validation_rejects_before_backend_witness :
    (echo_bytes 7999 1 [0] (AsrOutcome.failure "x") []).asrCalled = false :=
  (C5_validation_rejects_before_backend 7999 1 [0] (AsrOutcome.failure "x") []
    (Or.inl (by decide))).2

/-- **C6**: in every successful one-way pipeline invocation, every streamed
audio chunk is strictly preceded in the invocation trace by the completion
of the recognize call and by the committed response preamble carrying
`X-Recognized-Text` (the recognized text) and `X-Segments` (the
JSON-encoded segment list); and the body chunks are exactly the
`synthesize_stream_http` chunks in arrival order. -/
theorem C6_metadata_before_audio (sr ch : Int) (body : List Nat)
    (tOpt : Option String) (sOpt : Option (List Seg)) (tts : List (List Nat))
    (hsr1 : 8000 ≤ sr) (hsr2 : sr ≤ 48000) (hch1 : 1 ≤ ch) (hch2 : ch ≤ 2)
    (hbody : body ≠ [])
    (htext : isBlank (tOpt.getD "") = false) :
    (∀ (p : Nat) (c : List Nat),
        (echoTrace sr ch body (AsrOutcome.success tOpt sOpt) tts)[p]?
          = some (EchoEv.bodyChunk c) →
        ∃ pa ph, pa < p ∧ ph < p ∧
          (echoTrace sr ch body (AsrOutcome.success tOpt sOpt) tts)[pa]?
            = some EchoEv.asrDone ∧
          (echoTrace sr ch body (AsrOutcome.success tOpt sOpt) tts)[ph]?
            = some (EchoEv.commitHeaders 200
                (fullEchoHeaders sr ch (tOpt.getD "")
                  (segmentsJsonOf (sOpt.getD []))))) ∧
    (echoTrace sr ch body (AsrOutcome.success tOpt sOpt) tts).filterMap chunkOf
      = tts ∧
    (fullEchoHeaders sr ch (tOpt.getD "") (segmentsJsonOf (sOpt.getD []))).lookup
        "X-Recognized-Text" = some (tOpt.getD "") ∧
    (fullEchoHeaders sr ch (tOpt.getD "") (segmentsJsonOf (sOpt.getD []))).lookup
        "X-Segments" = some (segmentsJsonOf (sOpt.getD [])) := by
  have h1 : ¬(sr < 8000 ∨ 48000 < sr) := by omega
  have h2 : ¬(ch < 1 ∨ 2 < ch) := by omega
  have h3 : body.isEmpty = false := by
    cases body with
    | nil => exact absurd rfl hbody
    | cons a l => rfl
  have htr : echoTrace sr ch body (AsrOutcome.success tOpt sOpt) tts
      = [EchoEv.asrCall, EchoEv.asrDone,
         EchoEv.commitHeaders 200
           (fullEchoHeaders sr ch (tOpt.getD "") (segmentsJsonOf (sOpt.getD [])))]
        ++ tts.map EchoEv.bodyChunk := by
    simp [echoTrace, h1, h2, h3, htext]
  refine ⟨?_, ?_, rfl, rfl⟩
  · intro p c hp
    rw [htr] at hp
    rcases p with _ | _ | _ | p
    · simp [List.cons_append] at hp
    · simp [List.cons_append] at hp
    · simp [List.cons_append] at hp
    · exact ⟨1, 2, by omega, by omega,
        by rw [htr]; simp [List.cons_append],
        by rw [htr]; simp [List.cons_append]⟩
  · rw [htr, List.filterMap_append, chunkOf_map]
    rfl

/-- Evaluation of C6 on a concrete successful invocation: the response body
is the TTS chunk sequence in arrival order. -/
theorem C6_metadata_before_audio_witness :
    (echoTrace 16000 1 [0] (AsrOutcome.success (some "hello") none)
        [[1], [2]]).filterMap chunkOf = [[1], [2]] :=
  (C6_metadata_before_audio 16000 1 [0] (some "hello") none [[1], [2]]
    (by decide) (by decide) (by decide) (by decide) (by decide) (by decide)).2.1

/-- **C7**: for every pair of backend health booleans, the aggregate status
is `"healthy"` iff both backends report `true` and `"degraded"` otherwise,
with the per-backend booleans reported alongside. -/
theorem C7_health_aggregate (t a : Bool) :
    ((healthAggregate [("tts", t), ("asr", a)]).status = "healthy"
      ↔ t = true ∧ a = true) ∧
    ((healthAggregate [("tts", t), ("asr", a)]).status = "degraded"
      ↔ ¬(t = true ∧ a = true)) ∧
    (healthAggregate [("tts", t), ("asr", a)]).dependencies
      = [("tts", t), ("asr", a)] := by
  cases t <;> cases a <;> decide

/-- **C8**: every backend probe outcome maps to a boolean — a response maps
to `status == 200` (so any non-success status maps to `false`) and any
raised failure (timeout or transport error) maps to `false` — and the
aggregation returns the per-backend entries for every outcome instead of
propagating a failure. -/
theorem C8_probe_failure_maps_to_false (e : ProbeError) (c : Nat)
    (tts asr : ProbeOutcome) (hc : c ≠ 200) :
    probeHealth (Except.error e) = false ∧
    probeHealth (Except.ok c) = false ∧
    probeHealth (Except.ok 200) = true ∧
    (check_services_health tts asr).lookup "tts" = some (probeHealth tts) ∧
    (check_services_health tts asr).lookup "asr" = some (probeHealth asr) := by
  refine ⟨rfl, ?_, rfl, rfl, rfl⟩
  show (c == 200) = false
  simp [hc]

/-- Evaluation of C8: a 500 response and a timeout both map to `false`. -/
theorem C8_probe_failure_maps_to_false_witness :
    probeHealth (Except.ok 500) = false ∧
    probeHealth (Except.error ProbeError.timeout) = false :=
  ⟨(C8_probe_failure_maps_to_false ProbeError.timeout 500 (Except.ok 200)
      (Except.error ProbeError.transportError) (by decide)).2.1,
   (C8_probe_failure_maps_to_false ProbeError.timeout 500 (Except.ok 200)
      (Except.error ProbeError.transportError) (by decide)).1⟩

/-- **C9**: the `sr` and `ch` query parameters are optional and default to
16000 and 1, values that pass validation: with any non-empty body, an
invocation using the defaults always reaches the ASR backend call. -/
theorem C9_default_params_pass_validation (body : List Nat) (asr : AsrOutcome)
    (tts : List (List Nat)) (hbody : body ≠ []) :
    (8000 ≤ sr_default ∧ sr_default ≤ 48000) ∧
    (ch_default = 1 ∨ ch_default = 2) ∧
    (echo_bytes_default body asr tts).asrCalled = true := by
  have h1 : ¬(sr_default < 8000 ∨ 48000 < sr_default) := by decide
  have h2 : ¬(ch_default < 1 ∨ 2 < ch_default) := by decide
  have h3 : body.isEmpty = false := by
    cases body with
    | nil => exact absurd rfl hbody
    | cons a l => rfl
  refine ⟨by decide, Or.inl rfl, ?_⟩
  cases asr with
  | failure err => simp [echo_bytes_default, echo_bytes, h1, h2, h3]
  | success tOpt sOpt =>
      by_cases hdeg : isBlank (tOpt.getD "") = true
      · simp [echo_bytes_default, echo_bytes, h1, h2, h3, hdeg]
      · simp [echo_bytes_default, echo_bytes, h1, h2, h3, hdeg]

/-- Evaluation of C9: the defaulted invocation calls the backend. -/
theorem C9_default_params_pass_validation_witness :
    (echo_bytes_default [0] (AsrOutcome.failure "x") []).asrCalled = true :=
  (C9_default_params_pass_validation [0] (AsrOutcome.failure "x") []
    (by decide)).2.2

/-- **C10**: in a segments request, an item lacking a `text` field or whose
text is blank is silently skipped — it contributes no trace event at all
(no relay cycle, no error frame) — while (when the backend cycles succeed)
every well-formed segment still gets its own relay cycle, and all events
are emitted in segment order. -/
theorem C10_blank_segments_skipped (oracle : Nat → BackendStream)
    (segs : List SegItem)
    (hok : ∀ i, (synthesize_stream_websocket (oracle i)).2 = RelayResult.ok) :
    (∀ i, (segs[i]? = some SegItem.noText ∨
        ∃ t, segs[i]? = some (SegItem.withText t) ∧ isBlank t = true) →
      ∀ e, (i, e) ∉ processSegments oracle segs 0) ∧
    (∀ (i : Nat) (t : String), segs[i]? = some (SegItem.withText t) →
      isBlank t = false → (i, Ev.openConn) ∈ processSegments oracle segs 0) ∧
    (∀ (p q : Nat) (x y : Nat × Ev),
      (processSegments oracle segs 0)[p]? = some x →
      (processSegments oracle segs 0)[q]? = some y → x.1 < y.1 → p < q) := by
  refine ⟨?_, ?_, ?_⟩
  · intro i hi e hmem
    rcases processSegments_mem_tag oracle segs 0 (i, e) hmem with ⟨j, t, hj, ht, hx1⟩
    simp only [Nat.zero_add] at hx1
    have hij : i = j := hx1
    subst hij
    rcases hi with h | ⟨t2, h2, ht2⟩
    · rw [h] at hj
      simp at hj
    · rw [h2] at hj
      have heq : t2 = t := by simpa using hj
      subst heq
      rw [ht2] at ht
      exact Bool.noConfusion ht
  · intro i t hseg ht
    have := processSegments_open_mem oracle hok segs 0 i t hseg ht
    simpa using this
  · intro p q x y hp hq hxy
    by_contra hpq
    push_neg at hpq
    have hs := processSegments_tags_sorted oracle segs 0
    have hp2 : ((processSegments oracle segs 0).map Prod.fst)[p]? = some x.1 := by
      rw [List.getElem?_map, hp]
      rfl
    have hq2 : ((processSegments oracle segs 0).map Prod.fst)[q]? = some y.1 := by
      rw [List.getElem?_map, hq]
      rfl
    have := sorted_getElem?_le hs hpq hq2 hp2
    omega

/-- Evaluation of C10 on `{segments:[{}, {text:"a"}]}`: the field-less
segment 0 contributes no event, while the well-formed segment 1 gets its
relay cycle. -/
theorem C10_blank_segments_skipped_witness :
    (0, Ev.openConn) ∉ processSegments silentOracle skipSegs 0 ∧
    (1, Ev.openConn) ∈ processSegments silentOracle skipSegs 0 :=
  ⟨(C10_blank_segments_skipped silentOracle skipSegs (fun _ => rfl)).1 0
      (Or.inl (by decide)) Ev.openConn,
   (C10_blank_segments_skipped silentOracle skipSegs (fun _ => rfl)).2.1 1 "a"
      (by decide) (by decide)⟩

end Gateway
